import Mathlib

/-!
Verification development for the oclient repository (two Python files:
src/ollama_client.py, a CLI, and src/ollama_gui.py, a Tkinter GUI).
Both send a prompt to an Ollama HTTP server and read back either a single
JSON object (non-streaming) or newline-delimited JSON objects (streaming).

The embedding below models, faithfully to the source:
  - the JSON payload built for POST /api/generate
    (ollama_client.generate lines 121-130, OllamaGUI._generate_thread
    lines 245-253);
  - the streaming line loop of ollama_client.generate (lines 134-156) and of
    OllamaGUI._generate_stream (lines 266-292);
  - the non-streaming branch of ollama_client.generate (lines 157-166) and
    OllamaGUI._generate_non_stream (lines 294-305);
  - the exception dispatch of ollama_client.generate (lines 167-172) and the
    catch-all of OllamaGUI._generate_thread (lines 260-264);
  - the statistics derivation of _print_verbose_stats (lines 35-83) and
    OllamaGUI.update_stats (lines 162-208).

Modelling conventions, stated once here:
  - HTTP and the server are abstracted as a behaviour value: either a
    transport failure (requests raises ConnectionError / Timeout, both
    RequestException subclasses), or a response carrying an HTTP status and
    a body.  For streaming the body is the list of lines that iter_lines
    yields, each line given by its parse outcome; for non-streaming the body
    is given by its json parse outcome.  Lines are taken after UTF-8
    decoding; byte-level framing is outside the model.
  - requests raise_for_status raises HTTPError (a RequestException) exactly
    when 400 <= status < 600.
  - json.loads on a malformed line raises json.JSONDecodeError.
    Response.json() on a malformed body raises
    requests.exceptions.JSONDecodeError, which (requests >= 2.27, the only
    line released since 2022; the repository pins no version) derives from
    InvalidJSONError, hence from RequestException, and also from
    json.JSONDecodeError.  The PyExc class-membership functions below record
    exactly these facts; the except-clause dispatch in the source checks
    RequestException first.
  - sys.stdout.write raises TypeError when its argument is not a str; the
    protocol always puts a string under the response key, so this branch is
    reachable only off-protocol.
  - The single newline the CLI prints after the loop (line 150) and the lone
    newline the GUI appends after its loop are presentation framing around
    the forwarded chunks and are not part of the chunk sequences modelled.
  - The GUI cancellation flag is_generating is user-driven; runs are
    modelled with no cancellation request (the flag stays true), which is
    the regime every claim quantifies over.
-/

/-- A JSON value as produced by json.loads: null, booleans, numbers
(modelled exactly as rationals), strings, arrays and objects.  An object is
the underlying key-value list; json.loads keeps the last binding of a
duplicated key, so lookup below is last-binding-wins. -/
inductive JVal where
  | null : JVal
  | bool : Bool → JVal
  | num : ℚ → JVal
  | str : String → JVal
  | arr : List JVal → JVal
  | obj : List (String × JVal) → JVal

/-- A parsed JSON object, as the dict json.loads returns for it. -/
abbrev Obj := List (String × JVal)

/-- Lookup of a key in a parsed object, last binding wins (the dict built by
json.loads overwrites earlier duplicates). -/
def lookupLast (fs : Obj) (k : String) : Option JVal :=
  fs.foldl (fun acc p => if p.1 == k then some p.2 else acc) none

/-- Python dict.get(key, default) on a parsed object. -/
def objGetD (fs : Obj) (k : String) (dflt : JVal) : JVal :=
  (lookupLast fs k).getD dflt

/-- Python truthiness of a value coming from json.loads: None is falsy,
booleans are themselves, a number is truthy iff nonzero, a string iff
nonempty, a list or dict iff nonempty. -/
def JVal.truthy : JVal → Bool
  | .null => false
  | .bool b => b
  | .num q => !(q == 0)
  | .str s => !(s == "")
  | .arr xs => !xs.isEmpty
  | .obj fs => !fs.isEmpty

/-- Whether a value is a Python str. -/
def JVal.isStr : JVal → Bool
  | .str _ => true
  | _ => false

/-- The string content of a value, empty for non-strings (used only in
statements, under hypotheses that force the str case). -/
def JVal.strD : JVal → String
  | .str s => s
  | _ => ""

/-- One line yielded by resp.iter_lines() in the streaming loop, given by
what the source does with it: an empty line (skipped by the falsiness test
at line 139), a line json.loads rejects, or a line parsing to a JSON object
with the given fields.  Protocol lines are always objects (spec section 6),
so object-valued parses are the modelled well-formed case. -/
inductive LineEvent where
  | empty : LineEvent
  | invalid : LineEvent
  | objLine : Obj → LineEvent

/-- The Python exceptions that can escape the request/read code inside the
try block of ollama_client.generate. -/
inductive PyExc where
  /-- ConnectionError, Timeout or HTTPError from requests. -/
  | requestExc : PyExc
  /-- requests.exceptions.JSONDecodeError raised by Response.json(). -/
  | requestsJsonDecode : PyExc
  /-- json.JSONDecodeError raised by json.loads on a stream line. -/
  | stdJsonDecode : PyExc
  /-- TypeError from sys.stdout.write on a non-str chunk. -/
  | typeError : PyExc

/-- Class membership for the first except clause:
requests.exceptions.RequestException.  requests.exceptions.JSONDecodeError
derives from InvalidJSONError, hence from RequestException (requests >=
2.27). -/
def PyExc.isRequestException : PyExc → Bool
  | .requestExc => true
  | .requestsJsonDecode => true
  | _ => false

/-- Class membership for the second except clause: json.JSONDecodeError.
requests.exceptions.JSONDecodeError also derives from it. -/
def PyExc.isJsonDecodeError : PyExc → Bool
  | .requestsJsonDecode => true
  | .stdJsonDecode => true
  | _ => false

/-- Distinctive core of the message printed by the RequestException handler
(ollama_client.py line 168). -/
def couldNotReachMsg : String := "Could not reach Ollama server"

/-- Distinctive core of the message printed by the JSONDecodeError handler
(ollama_client.py line 171). -/
def invalidJsonMsg : String := "Invalid JSON from server"

/-- Observable outcome of a call to ollama_client.generate: either a normal
return carrying the returned value (None or the value of data.get), the
chunks written to stdout by the streaming loop, the terminal record held in
last_data / data (available to verbose statistics), and the error message
printed to stderr if a handler fired; or an exception the handlers do not
catch, propagating to the caller with the chunks already written. -/
inductive GenOutcome where
  | ret : Option JVal → List String → Option Obj → Option String → GenOutcome
  | uncaught : PyExc → List String → GenOutcome

/-- Whether the call returned normally (no exception reached the caller). -/
def GenOutcome.isRet : GenOutcome → Bool
  | .ret _ _ _ _ => true
  | .uncaught _ _ => false

/-- The returned value when the call returned normally. -/
def GenOutcome.retVal? : GenOutcome → Option (Option JVal)
  | .ret r _ _ _ => some r
  | .uncaught _ _ => none

/-- The chunks written to stdout, in order. -/
def GenOutcome.chunks : GenOutcome → List String
  | .ret _ w _ _ => w
  | .uncaught _ w => w

/-- The error message printed, when a handler fired. -/
def GenOutcome.errMsg : GenOutcome → Option String
  | .ret _ _ _ m => m
  | .uncaught _ _ => none

/-- Whether the call returned a Python str (rather than None or a non-str
value). -/
def GenOutcome.returnsStr : GenOutcome → Bool
  | .ret (some (JVal.str _)) _ _ _ => true
  | _ => false

/-- The except dispatch at the bottom of ollama_client.generate (lines
167-172), applied to an exception raised inside the try block after the
given chunks were already written: the RequestException clause is checked
first, then the json.JSONDecodeError clause; anything else propagates.
Either handler prints its message and returns None. -/
def handleExc (written : List String) (e : PyExc) : GenOutcome :=
  if e.isRequestException then .ret none written none (some couldNotReachMsg)
  else if e.isJsonDecodeError then .ret none written none (some invalidJsonMsg)
  else .uncaught e written

/-- Local state of the streaming loop of ollama_client.generate: the chunks
written to stdout so far and the last_data variable. -/
structure StreamState where
  written : List String
  lastData : Option Obj

/-- The for-loop of ollama_client.generate lines 138-149: skip falsy lines;
json.loads a non-empty line (raising on malformed input, which aborts the
loop); write data.get("response", "") to stdout (TypeError if not a str);
set last_data to the parsed object when data.get("done", False) is truthy.
Returns the final state and the exception that aborted the loop, if any. -/
def cliProcessLines (st : StreamState) : List LineEvent → StreamState × Option PyExc
  | [] => (st, none)
  | .empty :: rest => cliProcessLines st rest
  | .invalid :: _ => (st, some PyExc.stdJsonDecode)
  | .objLine fs :: rest =>
    match objGetD fs "response" (JVal.str "") with
    | JVal.str s =>
      cliProcessLines
        ⟨st.written ++ [s],
         if (objGetD fs "done" (JVal.bool false)).truthy then some fs else st.lastData⟩
        rest
    | _ => (st, some PyExc.typeError)

/-- Server behaviour observed by a streaming request: transport failure from
requests.post, or an HTTP response with a status and a list of lines. -/
inductive StreamBehavior where
  | connError : StreamBehavior
  | timeoutErr : StreamBehavior
  | resp : Nat → List LineEvent → StreamBehavior

/-- ollama_client.generate with stream=True (lines 132-156 plus the except
clauses): post the request, raise_for_status, run the line loop, return
None; exceptions go to the except dispatch.  On the success path last_data
is what verbose statistics would be derived from. -/
def cliGenerateStream (b : StreamBehavior) : GenOutcome :=
  match b with
  | .connError => handleExc [] .requestExc
  | .timeoutErr => handleExc [] .requestExc
  | .resp status lines =>
    if 400 ≤ status ∧ status < 600 then handleExc [] .requestExc
    else
      match cliProcessLines ⟨[], none⟩ lines with
      | (st, none) => .ret none st.written st.lastData none
      | (st, some e) => handleExc st.written e

/-- Parse outcome of the full body of a non-streaming response:
Response.json() raises requests.exceptions.JSONDecodeError on malformed
input, or yields a JSON object (protocol bodies are objects). -/
inductive BodyEvent where
  | invalid : BodyEvent
  | objBody : Obj → BodyEvent

/-- Server behaviour observed by a non-streaming request. -/
inductive BufferedBehavior where
  | connError : BufferedBehavior
  | timeoutErr : BufferedBehavior
  | resp : Nat → BodyEvent → BufferedBehavior

/-- ollama_client.generate with stream=False (lines 157-166 plus the except
clauses): post, raise_for_status, parse the body, return
data.get("response", ""); exceptions go to the except dispatch.  The parsed
body is what verbose statistics are derived from. -/
def cliGenerateNoStream (b : BufferedBehavior) : GenOutcome :=
  match b with
  | .connError => handleExc [] .requestExc
  | .timeoutErr => handleExc [] .requestExc
  | .resp status body =>
    if 400 ≤ status ∧ status < 600 then handleExc [] .requestExc
    else
      match body with
      | .invalid => handleExc [] .requestsJsonDecode
      | .objBody fs => .ret (some (objGetD fs "response" (JVal.str ""))) [] (some fs) none

/-- Local state of the streaming loop of OllamaGUI._generate_stream: the
values handed to _append_output via root.after, in order, and last_data. -/
structure GuiStreamState where
  appended : List JVal
  lastData : Option Obj

/-- The for-loop of OllamaGUI._generate_stream lines 272-286, with no
cancellation request (is_generating stays true): skip falsy lines;
json.loads a non-empty line; hand chunk = data.get("response", "") to the
UI thread only when chunk is truthy; set last_data when
data.get("done", False) is truthy. -/
def guiStreamLoop (st : GuiStreamState) : List LineEvent → GuiStreamState × Option PyExc
  | [] => (st, none)
  | .empty :: rest => guiStreamLoop st rest
  | .invalid :: _ => (st, some PyExc.stdJsonDecode)
  | .objLine fs :: rest =>
    let chunk := objGetD fs "response" (JVal.str "")
    guiStreamLoop
      ⟨(if chunk.truthy then st.appended ++ [chunk] else st.appended),
       if (objGetD fs "done" (JVal.bool false)).truthy then some fs else st.lastData⟩
      rest

/-- Observable outcome of OllamaGUI._generate_thread: the values appended to
the output widget (chunk forwards; the framing newline append is not
modelled), the object handed to update_stats if any, whether an [ERROR]
line was appended by the catch-all, and whether _generation_complete ran
(re-enabling the interface). -/
structure GuiOutcome where
  appended : List JVal
  statsShown : Option Obj
  errorLine : Bool
  endsReady : Bool

/-- The except-Exception path of OllamaGUI._generate_thread lines 260-264:
an error line is appended on the UI thread, the status turns to Error, and
the finally clause still runs _generation_complete. -/
def guiErrOutcome (ap : List JVal) : GuiOutcome :=
  { appended := ap, statsShown := none, errorLine := true, endsReady := true }

/-- OllamaGUI._generate_thread with stream truthy, composed with
_generate_stream (lines 238-292): every exception anywhere in the body is
caught by except Exception, and _generation_complete always runs (finally).
On success update_stats is invoked exactly when last_data was set. -/
def guiGenerateThreadStream (b : StreamBehavior) : GuiOutcome :=
  match b with
  | .connError => guiErrOutcome []
  | .timeoutErr => guiErrOutcome []
  | .resp status lines =>
    if 400 ≤ status ∧ status < 600 then guiErrOutcome []
    else
      match guiStreamLoop ⟨[], none⟩ lines with
      | (st, none) =>
        { appended := st.appended, statsShown := st.lastData
          errorLine := false, endsReady := true }
      | (st, some _) => guiErrOutcome st.appended

/-- OllamaGUI._generate_thread with stream falsy, composed with
_generate_non_stream (lines 294-305): post, raise_for_status, parse the
body, append data.get("response", "") to the output, and always hand the
parsed body to update_stats. -/
def guiGenerateThreadNoStream (b : BufferedBehavior) : GuiOutcome :=
  match b with
  | .connError => guiErrOutcome []
  | .timeoutErr => guiErrOutcome []
  | .resp status body =>
    if 400 ≤ status ∧ status < 600 then guiErrOutcome []
    else
      match body with
      | .invalid => guiErrOutcome []
      | .objBody fs =>
        { appended := [objGetD fs "response" (JVal.str "")], statsShown := some fs
          errorLine := false, endsReady := true }

/-- The terminal record (spec: GenerationResult), as the typed view of the
fields _print_verbose_stats and update_stats read from the parsed dict;
a field is none when the key is absent, and dict.get(key, 0) becomes
getD 0.  Durations are nanosecond integers, counts are integers. -/
structure GenResult where
  model? : Option String := none
  total_duration? : Option Int := none
  load_duration? : Option Int := none
  prompt_eval_duration? : Option Int := none
  eval_duration? : Option Int := none
  prompt_eval_count? : Option Int := none
  eval_count? : Option Int := none
  done_reason? : Option String := none

/-- The numbers _print_verbose_stats prints: durations in seconds, token
counts, the total, and the two speeds, none when the guard suppressed the
corresponding print. -/
structure VerboseStats where
  total_duration_s : ℚ
  load_duration_s : ℚ
  prompt_eval_duration_s : ℚ
  eval_duration_s : ℚ
  prompt_tokens : Int
  gen_tokens : Int
  total_tokens : Int
  prompt_tokens_per_sec : Option ℚ
  gen_tokens_per_sec : Option ℚ

/-- The statistics derivation of _print_verbose_stats (ollama_client.py
lines 35-83): divide nanosecond durations by 1e9 (exact here: 1e9 is the
float 10^9), total tokens unconditionally as the sum of the two counts, and
each speed printed only under the guard duration > 0 and count > 0,
in that source order. -/
def printVerboseStats (data : GenResult) : VerboseStats :=
  let total_duration : ℚ := (data.total_duration?.getD 0 : ℚ) / 1000000000
  let load_duration : ℚ := (data.load_duration?.getD 0 : ℚ) / 1000000000
  let prompt_eval_duration : ℚ := (data.prompt_eval_duration?.getD 0 : ℚ) / 1000000000
  let eval_duration : ℚ := (data.eval_duration?.getD 0 : ℚ) / 1000000000
  let prompt_eval_count : Int := data.prompt_eval_count?.getD 0
  let eval_count : Int := data.eval_count?.getD 0
  { total_duration_s := total_duration
    load_duration_s := load_duration
    prompt_eval_duration_s := prompt_eval_duration
    eval_duration_s := eval_duration
    prompt_tokens := prompt_eval_count
    gen_tokens := eval_count
    total_tokens := prompt_eval_count + eval_count
    prompt_tokens_per_sec :=
      if 0 < prompt_eval_duration ∧ 0 < prompt_eval_count then
        some ((prompt_eval_count : ℚ) / prompt_eval_duration)
      else none
    gen_tokens_per_sec :=
      if 0 < eval_duration ∧ 0 < eval_count then
        some ((eval_count : ℚ) / eval_duration)
      else none }

/-- The values OllamaGUI.update_stats puts into the stats labels; a speed is
none when the label is set to the dash placeholder instead. -/
structure GuiStats where
  total_s : ℚ
  load_s : ℚ
  prompt_eval_s : ℚ
  gen_s : ℚ
  prompt_tokens : Int
  gen_tokens : Int
  total_tokens : Int
  prompt_speed? : Option ℚ
  gen_speed? : Option ℚ

/-- The statistics derivation of OllamaGUI.update_stats (ollama_gui.py
lines 162-208): the same arithmetic as the CLI, with each speed label set
to a value under the guard duration > 0 and count > 0 and to a dash
otherwise. -/
def updateStats (data : GenResult) : GuiStats :=
  let total_duration : ℚ := (data.total_duration?.getD 0 : ℚ) / 1000000000
  let load_duration : ℚ := (data.load_duration?.getD 0 : ℚ) / 1000000000
  let prompt_eval_duration : ℚ := (data.prompt_eval_duration?.getD 0 : ℚ) / 1000000000
  let eval_duration : ℚ := (data.eval_duration?.getD 0 : ℚ) / 1000000000
  let prompt_eval_count : Int := data.prompt_eval_count?.getD 0
  let eval_count : Int := data.eval_count?.getD 0
  { total_s := total_duration
    load_s := load_duration
    prompt_eval_s := prompt_eval_duration
    gen_s := eval_duration
    prompt_tokens := prompt_eval_count
    gen_tokens := eval_count
    total_tokens := prompt_eval_count + eval_count
    prompt_speed? :=
      if 0 < prompt_eval_duration ∧ 0 < prompt_eval_count then
        some ((prompt_eval_count : ℚ) / prompt_eval_duration)
      else none
    gen_speed? :=
      if 0 < eval_duration ∧ 0 < eval_count then
        some ((eval_count : ℚ) / eval_duration)
      else none }

/-- The request payload built by ollama_client.generate lines 122-130 and,
with identical text, by OllamaGUI._generate_thread lines 246-253: a dict
with keys model, prompt, stream, and an options dict holding num_gpu added
exactly when num_gpu is not None. -/
def buildPayload (model prompt : String) (stream : Bool) (num_gpu : Option Int) : Obj :=
  let payload : Obj :=
    [("model", JVal.str model), ("prompt", JVal.str prompt), ("stream", JVal.bool stream)]
  match num_gpu with
  | some n => payload ++ [("options", JVal.obj [("num_gpu", JVal.num (n : ℚ))])]
  | none => payload

/-- Spec-side description (section 4.2 of the spec): the per-line response
strings of a line list, in receipt order — for every object line the value
of its response field (empty string when absent), skipping empty lines.
Compared against the loop implementations above. -/
def specChunks : List LineEvent → List String
  | [] => []
  | .objLine fs :: rest => (objGetD fs "response" (JVal.str "")).strD :: specChunks rest
  | _ :: rest => specChunks rest

/-- Spec-side in-order concatenation of chunks. -/
def specConcat : List String → String
  | [] => ""
  | s :: rest => s ++ specConcat rest

/-- The object carried by a line when that line is an object line whose done
field is truthy, none otherwise. -/
def doneObj? : LineEvent → Option Obj
  | .objLine fs => if (objGetD fs "done" (JVal.bool false)).truthy then some fs else none
  | _ => none

/-- Override combination: the new candidate when present, the old one
otherwise (the update discipline of the last_data variable). -/
def pickLast (new old : Option Obj) : Option Obj :=
  match new with
  | some fs => some fs
  | none => old

/-- Spec-side description: the object of the last line whose done field is
truthy (rightmost wins), none when no such line exists. -/
def lastDone : List LineEvent → Option Obj
  | [] => none
  | l :: rest => pickLast (lastDone rest) (doneObj? l)

/-- A line the streaming loops traverse without aborting: empty, or an
object line whose response value (default empty string) is a str.  This is
exactly the well-formed shape of protocol lines (spec section 6). -/
def LineEvent.strictGood : LineEvent → Bool
  | .empty => true
  | .invalid => false
  | .objLine fs => (objGetD fs "response" (JVal.str "")).isStr

/-- A line that is either malformed JSON or of the protocol shape; rules out
only object lines carrying a non-str response value (off-protocol). -/
def LineEvent.respOk : LineEvent → Bool
  | .empty => true
  | .invalid => true
  | .objLine fs => (objGetD fs "response" (JVal.str "")).isStr

/-- A streaming behaviour whose object lines all carry str responses. -/
def StreamBehavior.respOk : StreamBehavior → Bool
  | .connError => true
  | .timeoutErr => true
  | .resp _ lines => lines.all LineEvent.respOk

/-- A non-streaming behaviour whose body, if an object, carries a str
response value (default counts). -/
def BufferedBehavior.respOk : BufferedBehavior → Bool
  | .connError => true
  | .timeoutErr => true
  | .resp _ .invalid => true
  | .resp _ (.objBody fs) => (objGetD fs "response" (JVal.str "")).isStr

/-- A non-streaming behaviour on which generate reaches the return
statement: a response whose status passes raise_for_status and whose body
parses to an object. -/
def BufferedBehavior.success : BufferedBehavior → Bool
  | .resp status (.objBody _) => !(400 ≤ status ∧ status < 600 : Bool)
  | _ => false

lemma pickLast_none_right (a : Option Obj) : pickLast a none = a := by
  cases a <;> rfl

lemma pickLast_assoc (a b c : Option Obj) :
    pickLast a (pickLast b c) = pickLast (pickLast a b) c := by
  cases a <;> cases b <;> rfl

lemma pickLast_ite (c : Bool) (fs : Obj) (old : Option Obj) :
    pickLast (if c then some fs else none) old = if c then some fs else old := by
  cases c <;> rfl

lemma isStr_exists {j : JVal} (h : j.isStr = true) : ∃ s, j = JVal.str s := by
  cases j <;> simp [JVal.isStr] at h ⊢

/-- The CLI streaming loop on a list of protocol-shaped lines: it consumes
every line, writes exactly the per-line response strings in order, and
leaves in last_data the object of the last done-truthy line (falling back
to the incoming value). -/
lemma cliProcessLines_good (lines : List LineEvent) : ∀ st : StreamState,
    lines.all LineEvent.strictGood = true →
    cliProcessLines st lines =
      (⟨st.written ++ specChunks lines, pickLast (lastDone lines) st.lastData⟩, none) := by
  induction lines with
  | nil =>
    intro st _
    simp [cliProcessLines, specChunks, lastDone, pickLast]
  | cons l rest ih =>
    intro st h
    rw [List.all_cons, Bool.and_eq_true] at h
    obtain ⟨h1, h2⟩ := h
    cases l with
    | empty =>
      have step := ih st h2
      simp only [cliProcessLines, specChunks, lastDone, doneObj?, pickLast_none_right]
      exact step
    | invalid => simp [LineEvent.strictGood] at h1
    | objLine fs =>
      simp only [LineEvent.strictGood] at h1
      obtain ⟨s, hs⟩ := isStr_exists h1
      have step := ih ⟨st.written ++ [s],
        if (objGetD fs "done" (JVal.bool false)).truthy then some fs else st.lastData⟩ h2
      simp only [cliProcessLines, hs]
      rw [step]
      simp only [specChunks, lastDone, doneObj?, hs, JVal.strD, ← pickLast_assoc,
        pickLast_ite, List.append_assoc, List.singleton_append]

/-- The CLI streaming loop aborts at the first malformed line with the
json.JSONDecodeError: the chunks of the protocol-shaped lines before it are
already written, and nothing after that line contributes (the result does
not mention rest at all). -/
lemma cliProcessLines_abort (good : List LineEvent) : ∀ (st : StreamState)
    (rest : List LineEvent), good.all LineEvent.strictGood = true →
    cliProcessLines st (good ++ LineEvent.invalid :: rest) =
      (⟨st.written ++ specChunks good, pickLast (lastDone good) st.lastData⟩,
       some PyExc.stdJsonDecode) := by
  induction good with
  | nil =>
    intro st rest _
    simp [cliProcessLines, specChunks, lastDone, pickLast]
  | cons l gtail ih =>
    intro st rest h
    rw [List.all_cons, Bool.and_eq_true] at h
    obtain ⟨h1, h2⟩ := h
    cases l with
    | empty =>
      have step := ih st rest h2
      simp only [List.cons_append, cliProcessLines, specChunks, lastDone, doneObj?,
        pickLast_none_right]
      exact step
    | invalid => simp [LineEvent.strictGood] at h1
    | objLine fs =>
      simp only [LineEvent.strictGood] at h1
      obtain ⟨s, hs⟩ := isStr_exists h1
      have step := ih ⟨st.written ++ [s],
        if (objGetD fs "done" (JVal.bool false)).truthy then some fs else st.lastData⟩ rest h2
      simp only [List.cons_append, cliProcessLines, hs, List.append_eq]
      rw [step]
      simp only [specChunks, lastDone, doneObj?, hs, JVal.strD, ← pickLast_assoc,
        pickLast_ite, List.append_assoc, List.singleton_append]

/-- On lines that are each empty, malformed, or protocol-shaped, the CLI
streaming loop never raises the TypeError branch (the only exception it can
produce is the json decode error). -/
lemma cliProcessLines_respOk (lines : List LineEvent) : ∀ st : StreamState,
    lines.all LineEvent.respOk = true →
    (cliProcessLines st lines).2 = none ∨
    (cliProcessLines st lines).2 = some PyExc.stdJsonDecode := by
  induction lines with
  | nil =>
    intro st _
    simp [cliProcessLines]
  | cons l rest ih =>
    intro st h
    rw [List.all_cons, Bool.and_eq_true] at h
    obtain ⟨h1, h2⟩ := h
    cases l with
    | empty => simpa only [cliProcessLines] using ih st h2
    | invalid => simp [cliProcessLines]
    | objLine fs =>
      simp only [LineEvent.respOk] at h1
      obtain ⟨s, hs⟩ := isStr_exists h1
      simpa only [cliProcessLines, hs] using
        ih ⟨st.written ++ [s],
          if (objGetD fs "done" (JVal.bool false)).truthy then some fs else st.lastData⟩ h2

/-- The GUI streaming loop on protocol-shaped lines: it consumes every line,
hands over exactly the nonempty per-line response strings in order, and
tracks last_data the same way as the CLI. -/
lemma guiStreamLoop_good (lines : List LineEvent) : ∀ st : GuiStreamState,
    lines.all LineEvent.strictGood = true →
    guiStreamLoop st lines =
      (⟨st.appended ++ ((specChunks lines).filter (fun s => !(s == ""))).map JVal.str,
        pickLast (lastDone lines) st.lastData⟩, none) := by
  induction lines with
  | nil =>
    intro st _
    simp [guiStreamLoop, specChunks, lastDone, pickLast]
  | cons l rest ih =>
    intro st h
    rw [List.all_cons, Bool.and_eq_true] at h
    obtain ⟨h1, h2⟩ := h
    cases l with
    | empty =>
      have step := ih st h2
      simp only [guiStreamLoop, specChunks, lastDone, doneObj?, pickLast_none_right]
      exact step
    | invalid => simp [LineEvent.strictGood] at h1
    | objLine fs =>
      simp only [LineEvent.strictGood] at h1
      obtain ⟨s, hs⟩ := isStr_exists h1
      have step := ih ⟨(if (JVal.str s).truthy then st.appended ++ [JVal.str s] else st.appended),
        if (objGetD fs "done" (JVal.bool false)).truthy then some fs else st.lastData⟩ h2
      simp only [guiStreamLoop, hs]
      rw [step]
      by_cases he : s = ""
      · subst he
        simp [specChunks, lastDone, doneObj?, hs, JVal.strD, JVal.truthy, ← pickLast_assoc,
          pickLast_ite]
      · have : (s == "") = false := by simpa using he
        simp [specChunks, lastDone, doneObj?, hs, JVal.strD, JVal.truthy, this,
          ← pickLast_assoc, pickLast_ite, List.append_assoc]

/-- Dropping empty strings does not change an in-order concatenation. -/
lemma specConcat_filter (l : List String) :
    specConcat (l.filter (fun s => !(s == ""))) = specConcat l := by
  induction l with
  | nil => rfl
  | cons s rest ih =>
    by_cases he : s = ""
    · subst he
      simpa [List.filter, specConcat, String.empty_append] using ih
    · have : (s == "") = false := by simpa using he
      simp [List.filter, this, specConcat, ih]

/-- Reading back the strings wrapped as JSON values gives the strings. -/
lemma map_strD_map_str (xs : List String) : (xs.map JVal.str).map JVal.strD = xs := by
  induction xs with
  | nil => rfl
  | cons s rest ih => simp only [List.map_cons, JVal.strD, ih]

/-- A nanosecond count divided by 1e9 is positive over the rationals exactly
when the count is positive. -/
lemma nsPos (n : Int) : (0 : ℚ) < (n : ℚ) / 1000000000 ↔ 0 < n := by
  rw [div_pos_iff]
  constructor
  · rintro (⟨h, _⟩ | ⟨_, h⟩)
    · exact_mod_cast h
    · norm_num at h
  · intro h
    exact Or.inl ⟨by exact_mod_cast h, by norm_num⟩

lemma ite_some_isSome {α : Type} {c : Prop} [Decidable c] (x : α) :
    (if c then some x else none).isSome = true ↔ c := by
  split_ifs with h <;> simp [h]

lemma pickLast_some_absorb (a : Option Obj) (fs : Obj) (c : Option Obj) :
    pickLast (pickLast a (some fs)) c = pickLast a (some fs) := by
  cases a <;> rfl

/-- The last done-truthy object of a concatenation: the right part wins when
it has one. -/
lemma lastDone_append (a b : List LineEvent) :
    lastDone (a ++ b) = pickLast (lastDone b) (lastDone a) := by
  induction a with
  | nil => simp [lastDone, pickLast_none_right]
  | cons l p ih =>
    simp only [List.cons_append, lastDone, List.append_eq, ih, ← pickLast_assoc]

/-- C9 (confirmed): the generated payload holds an options object with field
num_gpu equal to the given value exactly when a value is provided; when none
is provided the options key is entirely absent and the payload has exactly
the keys model, prompt, stream, bound to the given values. -/
theorem C9_payload_options (model prompt : String) (stream : Bool) (g : Option Int) :
    lookupLast (buildPayload model prompt stream g) "options"
      = g.map (fun n => JVal.obj [("num_gpu", JVal.num (n : ℚ))]) ∧
    (buildPayload model prompt stream g).map Prod.fst
      = ["model", "prompt", "stream"] ++ (g.elim [] fun _ => ["options"]) ∧
    lookupLast (buildPayload model prompt stream g) "model" = some (JVal.str model) ∧
    lookupLast (buildPayload model prompt stream g) "prompt" = some (JVal.str prompt) ∧
    lookupLast (buildPayload model prompt stream g) "stream" = some (JVal.bool stream) := by
  cases g <;> exact ⟨rfl, rfl, rfl, rfl, rfl⟩

/-- C6 (confirmed): both front-ends display total_tokens as
prompt_eval_count + eval_count unconditionally, each count read with
default 0, so an all-absent record displays 0. -/
theorem C6_total_tokens (d : GenResult) :
    (printVerboseStats d).total_tokens
      = d.prompt_eval_count?.getD 0 + d.eval_count?.getD 0 ∧
    (updateStats d).total_tokens
      = d.prompt_eval_count?.getD 0 + d.eval_count?.getD 0 ∧
    (printVerboseStats ({} : GenResult)).total_tokens = 0 ∧
    (updateStats ({} : GenResult)).total_tokens = 0 :=
  ⟨rfl, rfl, rfl, rfl⟩

/-- C8 (code_bug evaluation): on a non-streaming 200 response whose body is
not valid JSON, the CLI prints the connectivity message, not the dedicated
decode message — Response.json() raises requests.exceptions.JSONDecodeError,
a RequestException subclass, and the RequestException clause comes first.
The streaming path, whose json.loads error is not a RequestException, does
reach the dedicated decode message, and the two messages differ. -/
theorem C8_decode_message_shadowed :
    cliGenerateNoStream (.resp 200 BodyEvent.invalid)
      = .ret none [] none (some couldNotReachMsg) ∧
    cliGenerateStream (.resp 200 [LineEvent.invalid])
      = .ret none [] none (some invalidJsonMsg) ∧
    couldNotReachMsg ≠ invalidJsonMsg :=
  ⟨rfl, rfl, by decide⟩

/-- C5 (confirmed): a non-streaming request with a passing status and a
single well-formed JSON object body returns (CLI) and presents (GUI)
exactly the response field of that object, the empty string when the field
is absent, and hands the same object to the statistics display. -/
theorem C5_nonstream_result (status : Nat) (fs : Obj)
    (hstatus : ¬(400 ≤ status ∧ status < 600)) :
    cliGenerateNoStream (.resp status (.objBody fs))
      = .ret (some (objGetD fs "response" (JVal.str ""))) [] (some fs) none ∧
    (lookupLast fs "response" = none →
      cliGenerateNoStream (.resp status (.objBody fs))
        = .ret (some (JVal.str "")) [] (some fs) none) ∧
    guiGenerateThreadNoStream (.resp status (.objBody fs))
      = { appended := [objGetD fs "response" (JVal.str "")], statsShown := some fs,
          errorLine := false, endsReady := true } := by
  refine ⟨?_, ?_, ?_⟩
  · simp [cliGenerateNoStream, if_neg hstatus]
  · intro h
    simp [cliGenerateNoStream, if_neg hstatus, objGetD, h]
  · simp [guiGenerateThreadNoStream, if_neg hstatus]

/-- C5 witness: a concrete successful non-streaming response, one with the
response field present and one without it. -/
theorem C5_witness :
    cliGenerateNoStream (.resp 200 (.objBody [("response", JVal.str "hello")]))
      = .ret (some (JVal.str "hello")) [] (some [("response", JVal.str "hello")]) none ∧
    cliGenerateNoStream (.resp 200 (.objBody [("done", JVal.bool true)]))
      = .ret (some (JVal.str "")) [] (some [("done", JVal.bool true)]) none := by
  constructor
  · exact (C5_nonstream_result 200 [("response", JVal.str "hello")] (by decide)).1
  · exact (C5_nonstream_result 200 [("done", JVal.bool true)] (by decide)).2.1 rfl

/-- C2 (confirmed): in both front-ends the prompt speed statistic is present
exactly when prompt_eval_count > 0 and prompt_eval_duration > 0 (raw
nanosecond field), likewise the generation speed for eval_count and
eval_duration; when present it is the count divided by a provably nonzero
seconds value, and otherwise it is marked unavailable — no division by a
zero duration is ever performed. -/
theorem C2_speed_guards (d : GenResult) :
    ((printVerboseStats d).prompt_tokens_per_sec.isSome = true ↔
      0 < d.prompt_eval_count?.getD 0 ∧ 0 < d.prompt_eval_duration?.getD 0) ∧
    ((printVerboseStats d).gen_tokens_per_sec.isSome = true ↔
      0 < d.eval_count?.getD 0 ∧ 0 < d.eval_duration?.getD 0) ∧
    ((updateStats d).prompt_speed?.isSome = true ↔
      0 < d.prompt_eval_count?.getD 0 ∧ 0 < d.prompt_eval_duration?.getD 0) ∧
    ((updateStats d).gen_speed?.isSome = true ↔
      0 < d.eval_count?.getD 0 ∧ 0 < d.eval_duration?.getD 0) ∧
    (∀ q : ℚ, (printVerboseStats d).prompt_tokens_per_sec = some q →
      (d.prompt_eval_duration?.getD 0 : ℚ) / 1000000000 ≠ 0 ∧
      q = (d.prompt_eval_count?.getD 0 : ℚ)
            / ((d.prompt_eval_duration?.getD 0 : ℚ) / 1000000000)) ∧
    (∀ q : ℚ, (printVerboseStats d).gen_tokens_per_sec = some q →
      (d.eval_duration?.getD 0 : ℚ) / 1000000000 ≠ 0 ∧
      q = (d.eval_count?.getD 0 : ℚ) / ((d.eval_duration?.getD 0 : ℚ) / 1000000000)) := by
  have hp : (printVerboseStats d).prompt_tokens_per_sec
      = if 0 < (d.prompt_eval_duration?.getD 0 : ℚ) / 1000000000
           ∧ 0 < d.prompt_eval_count?.getD 0
        then some ((d.prompt_eval_count?.getD 0 : ℚ)
            / ((d.prompt_eval_duration?.getD 0 : ℚ) / 1000000000))
        else none := rfl
  have hg : (printVerboseStats d).gen_tokens_per_sec
      = if 0 < (d.eval_duration?.getD 0 : ℚ) / 1000000000 ∧ 0 < d.eval_count?.getD 0
        then some ((d.eval_count?.getD 0 : ℚ) / ((d.eval_duration?.getD 0 : ℚ) / 1000000000))
        else none := rfl
  have hp2 : (updateStats d).prompt_speed?
      = if 0 < (d.prompt_eval_duration?.getD 0 : ℚ) / 1000000000
           ∧ 0 < d.prompt_eval_count?.getD 0
        then some ((d.prompt_eval_count?.getD 0 : ℚ)
            / ((d.prompt_eval_duration?.getD 0 : ℚ) / 1000000000))
        else none := rfl
  have hg2 : (updateStats d).gen_speed?
      = if 0 < (d.eval_duration?.getD 0 : ℚ) / 1000000000 ∧ 0 < d.eval_count?.getD 0
        then some ((d.eval_count?.getD 0 : ℚ) / ((d.eval_duration?.getD 0 : ℚ) / 1000000000))
        else none := rfl
  refine ⟨?_, ?_, ?_, ?_, ?_, ?_⟩
  · rw [hp, ite_some_isSome, nsPos]
    exact and_comm
  · rw [hg, ite_some_isSome, nsPos]
    exact and_comm
  · rw [hp2, ite_some_isSome, nsPos]
    exact and_comm
  · rw [hg2, ite_some_isSome, nsPos]
    exact and_comm
  · intro q hq
    rw [hp] at hq
    by_cases hc : 0 < (d.prompt_eval_duration?.getD 0 : ℚ) / 1000000000
        ∧ 0 < d.prompt_eval_count?.getD 0
    · rw [if_pos hc, Option.some_inj] at hq
      exact ⟨ne_of_gt hc.1, hq.symm⟩
    · rw [if_neg hc] at hq
      exact absurd hq (by simp)
  · intro q hq
    rw [hg] at hq
    by_cases hc : 0 < (d.eval_duration?.getD 0 : ℚ) / 1000000000 ∧ 0 < d.eval_count?.getD 0
    · rw [if_pos hc, Option.some_inj] at hq
      exact ⟨ne_of_gt hc.1, hq.symm⟩
    · rw [if_neg hc] at hq
      exact absurd hq (by simp)

/-- C2 witness: a record with positive counts and durations has both speeds
present (prompt speed 2 tokens per second), and a record with eval_count 0
has the generation speed marked unavailable. -/
theorem C2_witness :
    ((printVerboseStats ⟨none, none, none, some 2000000000, some 1000000000,
        some 4, some 3, none⟩).prompt_tokens_per_sec).isSome = true ∧
    ((2000000000 : ℚ) / 1000000000 ≠ 0) ∧
    ((printVerboseStats ⟨none, none, none, none, some 1000000000,
        none, some 0, none⟩).gen_tokens_per_sec).isSome = false := by
  refine ⟨?_, ?_, ?_⟩
  · exact (C2_speed_guards _).1.mpr ⟨by decide, by decide⟩
  · have hq : (printVerboseStats ⟨none, none, none, some 2000000000, some 1000000000,
        some 4, some 3, none⟩).prompt_tokens_per_sec = some 2 := by
      norm_num [printVerboseStats]
    have h1 := ((C2_speed_guards ⟨none, none, none, some 2000000000, some 1000000000,
        some 4, some 3, none⟩).2.2.2.2.1 2 hq).1
    norm_num at h1 ⊢
  · have h := (C2_speed_guards ⟨none, none, none, none, some 1000000000,
        none, some 0, none⟩).2.1
    cases hb : ((printVerboseStats ⟨none, none, none, none, some 1000000000,
        none, some 0, none⟩).gen_tokens_per_sec).isSome
    · rfl
    · exact absurd (h.mp hb).1 (by decide)

/-- C1 (counterexample): a stream whose first line already has done=true and
whose second line carries response "b" refutes the claim that no line after
the first done=true line is read, parsed or forwarded — both front-ends
forward "b" as well, and the CLI returns with both chunks written. -/
theorem C1_counterexample :
    cliGenerateStream (.resp 200
        [LineEvent.objLine [("response", JVal.str "a"), ("done", JVal.bool true)],
         LineEvent.objLine [("response", JVal.str "b"), ("done", JVal.bool false)]])
      = .ret none ["a", "b"]
          (some [("response", JVal.str "a"), ("done", JVal.bool true)]) none ∧
    (["a", "b"] : List String) ≠ ["a"] ∧
    (guiStreamLoop ⟨[], none⟩
        [LineEvent.objLine [("response", JVal.str "a"), ("done", JVal.bool true)],
         LineEvent.objLine [("response", JVal.str "b"), ("done", JVal.bool false)]]).1.appended
      = [JVal.str "a", JVal.str "b"] :=
  ⟨rfl, by decide, rfl⟩

/-- C1 (amended): on a protocol-shaped stream the readers do not stop at a
done-truthy line; every following line is still traversed and its chunk
forwarded, and the terminal record kept for statistics is the object of the
last done-truthy line (the lines after the done line win when they carry
done themselves). -/
theorem C1_amended_no_stop (status : Nat) (pre post : List LineEvent) (fs : Obj)
    (hstatus : ¬(400 ≤ status ∧ status < 600))
    (hgood : (pre ++ LineEvent.objLine fs :: post).all LineEvent.strictGood = true)
    (hdone : (objGetD fs "done" (JVal.bool false)).truthy = true) :
    cliGenerateStream (.resp status (pre ++ LineEvent.objLine fs :: post))
      = .ret none (specChunks (pre ++ LineEvent.objLine fs :: post))
          (pickLast (lastDone post) (some fs)) none ∧
    (guiStreamLoop ⟨[], none⟩ (pre ++ LineEvent.objLine fs :: post)).1.lastData
      = pickLast (lastDone post) (some fs) := by
  have hld : lastDone (pre ++ LineEvent.objLine fs :: post)
      = pickLast (lastDone post) (some fs) := by
    rw [lastDone_append]
    have hdo : doneObj? (LineEvent.objLine fs) = some fs := by
      simp [doneObj?, hdone]
    rw [lastDone, hdo, pickLast_some_absorb]
  have hrun := cliProcessLines_good (pre ++ LineEvent.objLine fs :: post) ⟨[], none⟩ hgood
  have hrun2 := guiStreamLoop_good (pre ++ LineEvent.objLine fs :: post) ⟨[], none⟩ hgood
  constructor
  · simp only [cliGenerateStream, if_neg hstatus, hrun, List.nil_append, hld,
      pickLast_none_right]
  · rw [hrun2]
    simp only [hld, pickLast_none_right]

/-- C1 amended witness: a concrete stream with a done line followed by a
further chunk line; the chunk after done is written and the done object is
the terminal record. -/
theorem C1_amended_witness :
    cliGenerateStream (.resp 200
        [LineEvent.objLine [("response", JVal.str "x"), ("done", JVal.bool true)],
         LineEvent.objLine [("response", JVal.str "y")]])
      = .ret none ["x", "y"]
          (some [("response", JVal.str "x"), ("done", JVal.bool true)]) none := by
  have h := (C1_amended_no_stop 200 [] [LineEvent.objLine [("response", JVal.str "y")]]
      [("response", JVal.str "x"), ("done", JVal.bool true)]
      (by decide) (by decide) (by decide)).1
  exact h

/-- C3 (confirmed): a streaming response whose lines are protocol-shaped up
to a malformed line makes the CLI abort the whole request at that line with
the decode-error message; the chunks of the lines before it stay written
(they are returned in the outcome), and the lines after the malformed one
contribute nothing (rest is arbitrary and absent from the result). -/
theorem C3_decode_abort (status : Nat) (good rest : List LineEvent)
    (hstatus : ¬(400 ≤ status ∧ status < 600))
    (hgood : good.all LineEvent.strictGood = true) :
    cliGenerateStream (.resp status (good ++ LineEvent.invalid :: rest))
      = .ret none (specChunks good) none (some invalidJsonMsg) := by
  have h := cliProcessLines_abort good ⟨[], none⟩ rest hgood
  simp only [cliGenerateStream, if_neg hstatus, h, handleExc, PyExc.isRequestException,
    PyExc.isJsonDecodeError, Bool.false_eq_true, if_false, if_true, List.nil_append]

/-- C3 witness: a concrete stream with one good chunk line, then a malformed
line, then a further line; the outcome keeps "pa", reports the decode
message, and ignores the trailing line. -/
theorem C3_witness :
    cliGenerateStream (.resp 200
        [LineEvent.objLine [("response", JVal.str "pa")], LineEvent.invalid,
         LineEvent.objLine [("response", JVal.str "later")]])
      = .ret none ["pa"] none (some invalidJsonMsg) := by
  have h := C3_decode_abort 200 [LineEvent.objLine [("response", JVal.str "pa")]]
    [LineEvent.objLine [("response", JVal.str "later")]] (by decide) (by decide)
  exact h

/-- C4 (confirmed): on a protocol-shaped stream the CLI writes exactly the
per-line response strings (empty string for an absent field), in receipt
order, skipping empty lines; the GUI forwards exactly the nonempty ones, in
the same order, and both present the same in-order concatenation. -/
theorem C4_chunk_order (status : Nat) (lines : List LineEvent)
    (hstatus : ¬(400 ≤ status ∧ status < 600))
    (hgood : lines.all LineEvent.strictGood = true) :
    (cliGenerateStream (.resp status lines)).chunks = specChunks lines ∧
    (guiStreamLoop ⟨[], none⟩ lines).1.appended.map JVal.strD
      = (specChunks lines).filter (fun s => !(s == "")) ∧
    specConcat ((guiStreamLoop ⟨[], none⟩ lines).1.appended.map JVal.strD)
      = specConcat (specChunks lines) := by
  have hc := cliProcessLines_good lines ⟨[], none⟩ hgood
  have hg := guiStreamLoop_good lines ⟨[], none⟩ hgood
  refine ⟨?_, ?_, ?_⟩
  · simp only [cliGenerateStream, if_neg hstatus, hc, GenOutcome.chunks, List.nil_append]
  · rw [hg]
    simp only [List.nil_append, map_strD_map_str]
  · rw [hg]
    simp only [List.nil_append, map_strD_map_str, specConcat_filter]

/-- C4 witness: a concrete stream with an empty line, an empty-string chunk
and two text chunks; the CLI writes all three response fields in order and
the GUI presents the same concatenation without the empty chunk. -/
theorem C4_witness :
    (cliGenerateStream (.resp 200
        [LineEvent.objLine [("response", JVal.str "ab")], LineEvent.empty,
         LineEvent.objLine [("response", JVal.str "")],
         LineEvent.objLine [("response", JVal.str "cd")]])).chunks
      = ["ab", "", "cd"] ∧
    specConcat ((guiStreamLoop ⟨[], none⟩
        [LineEvent.objLine [("response", JVal.str "ab")], LineEvent.empty,
         LineEvent.objLine [("response", JVal.str "")],
         LineEvent.objLine [("response", JVal.str "cd")]]).1.appended.map JVal.strD)
      = specConcat ["ab", "", "cd"] := by
  have h := C4_chunk_order 200
    [LineEvent.objLine [("response", JVal.str "ab")], LineEvent.empty,
     LineEvent.objLine [("response", JVal.str "")],
     LineEvent.objLine [("response", JVal.str "cd")]] (by decide) (by decide)
  exact ⟨h.1, h.2.2⟩

/-- C7 (confirmed over the enumerated behaviours): for connection failures,
timeouts, HTTP error statuses and malformed bodies or lines, the CLI
generate call always returns normally (both modes; streaming stated over
protocol-shaped object lines, whose response values are strings), the
failures are converted to the handler messages, and the GUI thread always
returns the interface to the ready state, flagging an error line. -/
theorem C7_no_crash :
    (∀ b : StreamBehavior, b.respOk = true → (cliGenerateStream b).isRet = true) ∧
    (∀ b : BufferedBehavior, (cliGenerateNoStream b).isRet = true) ∧
    (∀ b : StreamBehavior, (guiGenerateThreadStream b).endsReady = true) ∧
    (∀ b : BufferedBehavior, (guiGenerateThreadNoStream b).endsReady = true) ∧
    cliGenerateStream .connError = .ret none [] none (some couldNotReachMsg) ∧
    cliGenerateStream .timeoutErr = .ret none [] none (some couldNotReachMsg) ∧
    cliGenerateNoStream .connError = .ret none [] none (some couldNotReachMsg) ∧
    (guiGenerateThreadStream .connError).errorLine = true := by
  refine ⟨?_, ?_, ?_, ?_, rfl, rfl, rfl, rfl⟩
  · intro b hb
    cases b with
    | connError => rfl
    | timeoutErr => rfl
    | resp status lines =>
      by_cases hst : 400 ≤ status ∧ status < 600
      · simp [cliGenerateStream, if_pos hst, handleExc, PyExc.isRequestException,
          GenOutcome.isRet]
      · simp only [StreamBehavior.respOk] at hb
        rcases hres : cliProcessLines ⟨[], none⟩ lines with ⟨st, e⟩
        rcases cliProcessLines_respOk lines ⟨[], none⟩ hb with h | h <;>
          rw [hres] at h <;> simp only at h <;> subst h <;>
          simp [cliGenerateStream, if_neg hst, hres, handleExc,
            PyExc.isRequestException, PyExc.isJsonDecodeError, GenOutcome.isRet]
  · intro b
    cases b with
    | connError => rfl
    | timeoutErr => rfl
    | resp status body =>
      by_cases hst : 400 ≤ status ∧ status < 600
      · simp [cliGenerateNoStream, if_pos hst, handleExc, PyExc.isRequestException,
          GenOutcome.isRet]
      · cases body with
        | invalid =>
          simp [cliGenerateNoStream, if_neg hst, handleExc, PyExc.isRequestException,
            GenOutcome.isRet]
        | objBody fs => simp [cliGenerateNoStream, if_neg hst, GenOutcome.isRet]
  · intro b
    cases b with
    | connError => rfl
    | timeoutErr => rfl
    | resp status lines =>
      by_cases hst : 400 ≤ status ∧ status < 600
      · simp [guiGenerateThreadStream, if_pos hst, guiErrOutcome]
      · rcases hres : guiStreamLoop ⟨[], none⟩ lines with ⟨st, e⟩
        cases e with
        | none => simp [guiGenerateThreadStream, if_neg hst, hres]
        | some e2 => simp [guiGenerateThreadStream, if_neg hst, hres, guiErrOutcome]
  · intro b
    cases b with
    | connError => rfl
    | timeoutErr => rfl
    | resp status body =>
      by_cases hst : 400 ≤ status ∧ status < 600
      · simp [guiGenerateThreadNoStream, if_pos hst, guiErrOutcome]
      · cases body with
        | invalid => simp [guiGenerateThreadNoStream, if_neg hst, guiErrOutcome]
        | objBody fs => simp [guiGenerateThreadNoStream, if_neg hst]

/-- C7 witness: a concrete malformed streaming line is recovered in both
front-ends — the CLI returns normally and the GUI ends ready. -/
theorem C7_witness :
    (cliGenerateStream (.resp 200 [LineEvent.invalid])).isRet = true ∧
    (guiGenerateThreadStream (.resp 200 [LineEvent.invalid])).endsReady = true :=
  ⟨C7_no_crash.1 _ (by decide), C7_no_crash.2.2.1 _⟩

/-- C10 (confirmed): with stream=True the CLI generate call returns None on
every behaviour (success, transport failure, HTTP error, malformed line —
stated over protocol-shaped object lines); with stream=False it returns a
str exactly on success (passing status and object body, str response value
or absent, so possibly the empty string), and None on every failure. -/
theorem C10_return_values :
    (∀ b : StreamBehavior, b.respOk = true → (cliGenerateStream b).retVal? = some none) ∧
    (∀ b : BufferedBehavior, b.respOk = true →
      (cliGenerateNoStream b).returnsStr = b.success) ∧
    (∀ b : BufferedBehavior, b.success = false →
      (cliGenerateNoStream b).retVal? = some none) := by
  refine ⟨?_, ?_, ?_⟩
  · intro b hb
    cases b with
    | connError => rfl
    | timeoutErr => rfl
    | resp status lines =>
      by_cases hst : 400 ≤ status ∧ status < 600
      · simp [cliGenerateStream, if_pos hst, handleExc, PyExc.isRequestException,
          GenOutcome.retVal?]
      · simp only [StreamBehavior.respOk] at hb
        rcases hres : cliProcessLines ⟨[], none⟩ lines with ⟨st, e⟩
        rcases cliProcessLines_respOk lines ⟨[], none⟩ hb with h | h <;>
          rw [hres] at h <;> simp only at h <;> subst h <;>
          simp [cliGenerateStream, if_neg hst, hres, handleExc,
            PyExc.isRequestException, PyExc.isJsonDecodeError, GenOutcome.retVal?]
  · intro b hb
    cases b with
    | connError => rfl
    | timeoutErr => rfl
    | resp status body =>
      by_cases hst : 400 ≤ status ∧ status < 600
      · cases body with
        | invalid =>
          simp [cliGenerateNoStream, if_pos hst, handleExc, PyExc.isRequestException,
            GenOutcome.returnsStr, BufferedBehavior.success]
        | objBody fs =>
          simp [cliGenerateNoStream, if_pos hst, handleExc, PyExc.isRequestException,
            GenOutcome.returnsStr, BufferedBehavior.success, hst]
      · cases body with
        | invalid =>
          simp [cliGenerateNoStream, if_neg hst, handleExc, PyExc.isRequestException,
            GenOutcome.returnsStr, BufferedBehavior.success]
        | objBody fs =>
          simp only [BufferedBehavior.respOk] at hb
          obtain ⟨s, hs⟩ := isStr_exists hb
          simp [cliGenerateNoStream, if_neg hst, hs, GenOutcome.returnsStr,
            BufferedBehavior.success, hst]
  · intro b hsucc
    cases b with
    | connError => rfl
    | timeoutErr => rfl
    | resp status body =>
      by_cases hst : 400 ≤ status ∧ status < 600
      · simp [cliGenerateNoStream, if_pos hst, handleExc, PyExc.isRequestException,
          GenOutcome.retVal?]
      · cases body with
        | invalid =>
          simp [cliGenerateNoStream, if_neg hst, handleExc, PyExc.isRequestException,
            PyExc.isJsonDecodeError, GenOutcome.retVal?]
        | objBody fs =>
          simp [BufferedBehavior.success, hst] at hsucc

/-- C10 witness: a concrete streaming success returns None, a concrete
non-streaming success returns a str, and a concrete HTTP 500 non-streaming
response returns None. -/
theorem C10_witness :
    (cliGenerateStream (.resp 200 [LineEvent.objLine [("response", JVal.str "hi")]])).retVal?
      = some none ∧
    (cliGenerateNoStream (.resp 200 (.objBody [("response", JVal.str "hi")]))).returnsStr
      = BufferedBehavior.success (.resp 200 (.objBody [("response", JVal.str "hi")])) ∧
    (cliGenerateNoStream (.resp 500 (.objBody [("response", JVal.str "hi")]))).retVal?
      = some none :=
  ⟨C10_return_values.1 _ (by decide), C10_return_values.2.1 _ (by decide),
   C10_return_values.2.2 _ (by decide)⟩
